import Mathlib

/-!
Shallow embedding of `lightning_examples/warp-drive/multi_agent_rl.py`,
a linear driver script that builds a run configuration, wires it into an
external multi-agent RL trainer, and provides a rollout-animation helper
(`generate_tag_env_rollout_animation` with its inner `_get_label` and
`animate` callbacks).  Pure fragments of the script become Lean functions;
the straight-line statement sequence becomes an explicit step list with
exception semantics; fallible Python operations (integer true-division,
dictionary key access) return `Except`.
-/

namespace MultiAgentRL

/- ----------------------------------------------------------------- -/
/- GPU precondition check (line 35-36):
   `_NUM_AVAILABLE_GPUS = torch.cuda.device_count()`
   `assert _NUM_AVAILABLE_GPUS > 0, "This notebook needs a GPU to run!"`
   `device_count` returns a nonnegative integer, modelled as `Nat`.     -/

def assertGpus (numAvailableGpus : Nat) : Except String Unit :=
  if numAvailableGpus > 0 then Except.ok ()
  else Except.error "This notebook needs a GPU to run!"

/- ----------------------------------------------------------------- -/
/- The animation frame schedule (line 294):
   `np.arange(0, env.episode_length + 1)` handed to `FuncAnimation`.   -/

def animationFrames (episodeLength : Nat) : List Nat :=
  List.range (episodeLength + 1)

/- ----------------------------------------------------------------- -/
/- The run configuration (lines 54-141): a nested Python dictionary.
   Values are strings, ints, decimal floats (exact decimals, embedded
   as rationals), booleans, lists of ints (`fc_dims`), or nested dicts. -/

mutual

inductive Value where
  | vStr : String → Value
  | vInt : Int → Value
  | vRat : ℚ → Value
  | vBool : Bool → Value
  | vIntList : List Int → Value
  | vDict : Fields → Value

inductive Fields where
  | fnil : Fields
  | fcons : String → Value → Fields → Fields

end

def Fields.ofList : List (String × Value) → Fields
  | [] => Fields.fnil
  | (k, v) :: rest => Fields.fcons k v (Fields.ofList rest)

def Fields.lookup : Fields → String → Option Value
  | Fields.fnil, _ => none
  | Fields.fcons k v rest, key => if k = key then some v else rest.lookup key

def Value.lookupPath : Value → List String → Option Value
  | v, [] => some v
  | Value.vDict fs, k :: ks =>
      match fs.lookup k with
      | some v => v.lookupPath ks
      | none => none
  | _, _ :: _ => none

def run_config : Value :=
  Value.vDict (Fields.ofList [
    ("name", Value.vStr "tag_continuous"),
    ("env", Value.vDict (Fields.ofList [
      ("num_taggers", Value.vInt 5),
      ("num_runners", Value.vInt 100),
      ("grid_length", Value.vRat 20.0),
      ("episode_length", Value.vInt 200),
      ("max_acceleration", Value.vRat 0.1),
      ("min_acceleration", Value.vRat (-0.1)),
      ("max_turn", Value.vRat 2.35),
      ("min_turn", Value.vRat (-2.35)),
      ("num_acceleration_levels", Value.vInt 10),
      ("num_turn_levels", Value.vInt 10),
      ("skill_level_tagger", Value.vRat 1.0),
      ("skill_level_runner", Value.vRat 1.0),
      ("use_full_observation", Value.vBool false),
      ("runner_exits_game_after_tagged", Value.vBool true),
      ("num_other_agents_observed", Value.vInt 10),
      ("tag_reward_for_tagger", Value.vRat 10.0),
      ("tag_penalty_for_runner", Value.vRat (-10.0)),
      ("end_of_game_reward_for_runner", Value.vRat 1.0),
      ("tagging_distance", Value.vRat 0.02)])),
    ("trainer", Value.vDict (Fields.ofList [
      ("num_envs", Value.vInt 50),
      ("train_batch_size", Value.vInt 10000),
      ("num_episodes", Value.vInt 50000)])),
    ("policy", Value.vDict (Fields.ofList [
      ("runner", Value.vDict (Fields.ofList [
        ("to_train", Value.vBool true),
        ("algorithm", Value.vStr "A2C"),
        ("gamma", Value.vRat 0.98),
        ("lr", Value.vRat 0.005),
        ("model", Value.vDict (Fields.ofList [
          ("type", Value.vStr "fully_connected"),
          ("fc_dims", Value.vIntList [256, 256]),
          ("model_ckpt_filepath", Value.vStr "")]))])),
      ("tagger", Value.vDict (Fields.ofList [
        ("to_train", Value.vBool true),
        ("algorithm", Value.vStr "A2C"),
        ("gamma", Value.vRat 0.98),
        ("lr", Value.vRat 0.002),
        ("model", Value.vDict (Fields.ofList [
          ("type", Value.vStr "fully_connected"),
          ("fc_dims", Value.vIntList [256, 256]),
          ("model_ckpt_filepath", Value.vStr "")]))]))])),
    ("saving", Value.vDict (Fields.ofList [
      ("metrics_log_freq", Value.vInt 10),
      ("model_params_save_freq", Value.vInt 5000),
      ("basedir", Value.vStr "/tmp"),
      ("name", Value.vStr "continuous_tag"),
      ("tag", Value.vStr "example")]))])

/- ----------------------------------------------------------------- -/
/- Modelled from the spec: serializing and reconstructing the
   run-configuration mapping (section 8, "Configuration dictionary
   round-trip").  The script itself contains no serializer (persistence
   is delegated externally), so the encoding below is a generic
   token-stream serialization of the nested mapping, with a fuel-indexed
   reconstruction. -/

inductive Tok where
  | tStr : String → Tok
  | tInt : Int → Tok
  | tRat : ℚ → Tok
  | tBool : Bool → Tok
  | tIntList : List Int → Tok
  | tDictStart : Tok
  | tDictEnd : Tok
  | tKey : String → Tok

mutual

def serializeValue : Value → List Tok
  | Value.vStr s => [Tok.tStr s]
  | Value.vInt n => [Tok.tInt n]
  | Value.vRat q => [Tok.tRat q]
  | Value.vBool b => [Tok.tBool b]
  | Value.vIntList l => [Tok.tIntList l]
  | Value.vDict fs => Tok.tDictStart :: serializeFields fs ++ [Tok.tDictEnd]

def serializeFields : Fields → List Tok
  | Fields.fnil => []
  | Fields.fcons k v rest => Tok.tKey k :: serializeValue v ++ serializeFields rest

end

mutual

def deserializeValue : Nat → List Tok → Option (Value × List Tok)
  | 0, _ => none
  | _ + 1, Tok.tStr s :: rest => some (Value.vStr s, rest)
  | _ + 1, Tok.tInt n :: rest => some (Value.vInt n, rest)
  | _ + 1, Tok.tRat q :: rest => some (Value.vRat q, rest)
  | _ + 1, Tok.tBool b :: rest => some (Value.vBool b, rest)
  | _ + 1, Tok.tIntList l :: rest => some (Value.vIntList l, rest)
  | fuel + 1, Tok.tDictStart :: rest =>
      match deserializeFields fuel rest with
      | some (fs, Tok.tDictEnd :: rest2) => some (Value.vDict fs, rest2)
      | _ => none
  | _ + 1, _ => none

def deserializeFields : Nat → List Tok → Option (Fields × List Tok)
  | 0, _ => none
  | fuel + 1, Tok.tKey k :: rest =>
      match deserializeValue fuel rest with
      | some (v, rest2) =>
          match deserializeFields fuel rest2 with
          | some (fs, rest3) => some (Fields.fcons k v fs, rest3)
          | none => none
      | none => none
  | _ + 1, toks => some (Fields.fnil, toks)

end

/- ----------------------------------------------------------------- -/
/- Reads of scalar configuration entries (lines 314, 327-329), and the
   max-epoch computation (line 330):
   `num_epochs = num_episodes * episode_length / training_batch_size`.
   Python ints and floats are modelled by `PyNum`; Python `/` on two
   ints always yields a float (true division), embedded as an exact
   rational. -/

def cfgInt (path : List String) : Int :=
  match run_config.lookupPath path with
  | some (Value.vInt n) => n
  | _ => 0

def num_episodes : Int := cfgInt ["trainer", "num_episodes"]

def episode_length : Int := cfgInt ["env", "episode_length"]

def training_batch_size : Int := cfgInt ["trainer", "train_batch_size"]

inductive PyNum where
  | pyInt : Int → PyNum
  | pyFloat : ℚ → PyNum
  deriving DecidableEq

def pyTrueDiv (a b : Int) : PyNum :=
  PyNum.pyFloat ((a : ℚ) / (b : ℚ))

def num_epochs : PyNum := pyTrueDiv (num_episodes * episode_length) training_batch_size

def PyNum.isIntegerValued : PyNum → Prop
  | PyNum.pyInt _ => True
  | PyNum.pyFloat q => ∃ n : Int, q = (n : ℚ)

/- ----------------------------------------------------------------- -/
/- The status label (lines 254-262, 291-292).
   `init_num_runners = env.num_agents - env.num_taggers` (line 254).
   `_get_label` computes `frac_runners_alive = n_runners_alive / init_n_runners`
   unguarded; Python raises `ZeroDivisionError` when the divisor is the
   int 0, so the label computation is embedded as `Except`.
   In `animate`, `n_runners_alive = episode_states["still_in_the_game"][i].sum()
   - env.num_taggers` where the channel holds 0/1 liveness flags, so the
   sum is the count of agents flagged active at timestep `i`.            -/

def initNumRunners (numAgents numTaggers : Nat) : Int :=
  (numAgents : Int) - (numTaggers : Int)

def activeAgentsAt (still_in_the_game : Nat → Nat → Bool) (numAgents i : Nat) : Nat :=
  (List.range numAgents).countP (fun a => still_in_the_game i a)

def nRunnersAlive (still_in_the_game : Nat → Nat → Bool) (numAgents numTaggers i : Nat) : Int :=
  (activeAgentsAt still_in_the_game numAgents i : Int) - (numTaggers : Int)

def pyDivIntByInt (a b : Int) : Except String ℚ :=
  if b = 0 then Except.error "ZeroDivisionError"
  else Except.ok ((a : ℚ) / (b : ℚ))

structure LabelData where
  timestep : Int
  nRunnersShown : Int
  fracRunnersAlive : ℚ

def getLabelData (timestep n_runners_alive init_n_runners : Int) :
    Except String LabelData :=
  match pyDivIntByInt n_runners_alive init_n_runners with
  | Except.error e => Except.error e
  | Except.ok frac =>
      Except.ok { timestep := timestep, nRunnersShown := n_runners_alive,
                  fracRunnersAlive := frac }

/- ----------------------------------------------------------------- -/
/- Marker rendering state (lines 234-252 initialize the per-agent plot
   lines; lines 275-289 are the per-frame `animate` callback).  Each
   agent marker carries a color and a marker glyph; `animate(i)` leaves
   an active agent's style untouched (the `if still_in_game: pass`
   branch) and otherwise recolors to the inactive color and removes the
   glyph.  Frames are rendered sequentially from 0, mutating the same
   line objects, so the style shown at frame `k` is the fold of
   `animate 0 .. animate k` over the initial styles.                     -/

def tagger_color : String := "#C843C3"

def runner_color : String := "#245EB6"

def runner_not_in_game_color : String := "#666666"

structure MarkerStyle where
  color : String
  marker : String
  deriving DecidableEq

def initMarker (isTagger : Nat → Bool) (idx : Nat) : MarkerStyle :=
  if isTagger idx then { color := tagger_color, marker := "o" }
  else { color := runner_color, marker := "o" }

def inactiveMarker : MarkerStyle :=
  { color := runner_not_in_game_color, marker := "" }

def animateStep (still_in_the_game : Nat → Nat → Bool) (i : Nat)
    (st : Nat → MarkerStyle) : Nat → MarkerStyle :=
  fun idx => if still_in_the_game i idx then st idx else inactiveMarker

def renderedAt (isTagger : Nat → Bool) (still_in_the_game : Nat → Nat → Bool) :
    Nat → Nat → MarkerStyle
  | 0 => animateStep still_in_the_game 0 (initMarker isTagger)
  | k + 1 => animateStep still_in_the_game (k + 1)
      (renderedAt isTagger still_in_the_game k)

/- Concrete sample inputs used to instantiate hypotheses of the marker
   theorem: tagger set {0}, and a liveness channel under which every
   agent is flagged active at timestep 0 only.                           -/

def sampleTaggers : Nat → Bool := fun idx => decide (idx = 0)

def sampleStill : Nat → Nat → Bool := fun i _ => decide (i = 0)

/- ----------------------------------------------------------------- -/
/- Fetched episode states (lines 187-188): the snapshot is a dictionary
   from channel names to arrays; the only validation performed is
   `assert isinstance(episode_states, dict)`, which inspects no keys.
   A missing channel therefore surfaces only at its first subscript
   access (`KeyError`): `loc_x` first at line 237, `loc_y` at line 238,
   `still_in_the_game` at line 283.                                      -/

inductive Channel where
  | loc_x : Channel
  | loc_y : Channel
  | still_in_the_game : Channel
  deriving DecidableEq

def fetchRequest : List Channel :=
  [Channel.loc_x, Channel.loc_y, Channel.still_in_the_game]

def validateEpisodeStates {α : Type} (_snapshot : Channel → Option α) :
    Except Channel Unit :=
  Except.ok ()

def accessChannel {α : Type} (snapshot : Channel → Option α) (c : Channel) :
    Except Channel α :=
  match snapshot c with
  | some v => Except.ok v
  | none => Except.error c

def sampleSnapshot : Channel → Option Nat :=
  fun c => if c = Channel.still_in_the_game then none else some 0

def rendererChannelReads {α : Type} (snapshot : Channel → Option α) :
    Except Channel Unit :=
  match accessChannel snapshot Channel.loc_x with
  | Except.error e => Except.error e
  | Except.ok _ =>
    match accessChannel snapshot Channel.loc_y with
    | Except.error e => Except.error e
    | Except.ok _ =>
      match accessChannel snapshot Channel.still_in_the_game with
      | Except.error e => Except.error e
      | Except.ok _ => Except.ok ()

/- ----------------------------------------------------------------- -/
/- The script's top-level statement sequence, in source order.  Python
   executes statements one after another; a raised exception aborts the
   script, so a statement runs only when every earlier statement
   completed normally.                                                   -/

inductive Stmt where
  | importModules : Stmt
  | assertGpusAvailable : Stmt
  | setLoggerLevel : Stmt
  | defineRunConfig : Stmt
  | buildEnvWrapper : Stmt
  | buildPolicyMap : Stmt
  | buildWdModule : Stmt
  | readLogFreqAndCallbacks : Stmt
  | computeNumEpochs : Stmt
  | buildTrainer : Stmt
  | fitTrainer : Stmt
  | gracefulClose : Stmt
  deriving DecidableEq

def script : List Stmt :=
  [Stmt.importModules, Stmt.assertGpusAvailable, Stmt.setLoggerLevel,
   Stmt.defineRunConfig, Stmt.buildEnvWrapper, Stmt.buildPolicyMap,
   Stmt.buildWdModule, Stmt.readLogFreqAndCallbacks, Stmt.computeNumEpochs,
   Stmt.buildTrainer, Stmt.fitTrainer, Stmt.gracefulClose]

def stmtsBefore (s : Stmt) : List Stmt :=
  script.takeWhile (fun t => decide (t ≠ s))

def reachedStmt (raises : Stmt → Bool) (s : Stmt) : Bool :=
  (stmtsBefore s).all (fun t => !raises t)

/- ----------------------------------------------------------------- -/
/- Data flow of `run_config` through the statements after its creation
   (lines 151-155, 163-168, 314, 327-329): every one of them only reads
   from the mapping.                                                     -/

structure ScriptEnv where
  runConfigVar : Value
  envWrapperEnvArg : Option Value
  envWrapperNumEnvsArg : Option Value
  wdModuleConfigArg : Option Value
  logFreqVar : Option Value
  numEpisodesVar : Option Value
  episodeLengthVar : Option Value
  trainBatchSizeVar : Option Value

def stmtBuildEnvWrapper (s : ScriptEnv) : ScriptEnv :=
  { s with envWrapperEnvArg := s.runConfigVar.lookupPath ["env"],
           envWrapperNumEnvsArg := s.runConfigVar.lookupPath ["trainer", "num_envs"] }

def stmtBuildWdModule (s : ScriptEnv) : ScriptEnv :=
  { s with wdModuleConfigArg := some s.runConfigVar }

def stmtReadLogFreq (s : ScriptEnv) : ScriptEnv :=
  { s with logFreqVar := s.runConfigVar.lookupPath ["saving", "metrics_log_freq"] }

def stmtReadTrainerParams (s : ScriptEnv) : ScriptEnv :=
  { s with numEpisodesVar := s.runConfigVar.lookupPath ["trainer", "num_episodes"],
           episodeLengthVar := s.runConfigVar.lookupPath ["env", "episode_length"],
           trainBatchSizeVar := s.runConfigVar.lookupPath ["trainer", "train_batch_size"] }

def scriptTailAfterConfig (s : ScriptEnv) : ScriptEnv :=
  stmtReadTrainerParams (stmtReadLogFreq (stmtBuildWdModule (stmtBuildEnvWrapper s)))

def initialScriptEnv : ScriptEnv :=
  { runConfigVar := run_config,
    envWrapperEnvArg := none, envWrapperNumEnvsArg := none,
    wdModuleConfigArg := none, logFreqVar := none,
    numEpisodesVar := none, episodeLengthVar := none,
    trainBatchSizeVar := none }

end MultiAgentRL

/- ------------------------- theorems ------------------------------- -/

namespace MultiAgentRL

/-- C5: the script's single top-level precondition check fails iff the
number of available GPU-class accelerators is zero; with at least one GPU
the check succeeds and execution proceeds. -/
theorem gpu_precheck_fails_iff_no_gpu (n : Nat) :
    (assertGpus n = Except.error "This notebook needs a GPU to run!" ↔ n = 0) ∧
    (assertGpus n = Except.ok () ↔ 0 < n) := by
  constructor
  · constructor
    · intro h
      by_contra hn
      have hpos : n > 0 := Nat.pos_of_ne_zero hn
      simp [assertGpus, hpos] at h
    · intro h
      subst h
      simp [assertGpus]
  · constructor
    · intro h
      by_contra hn
      have hz : n = 0 := Nat.eq_zero_of_not_pos hn
      subst hz
      simp [assertGpus] at h
    · intro h
      simp [assertGpus, h]

/-- C3: for an environment with configured episode length `T`, the renderer
schedules exactly `T + 1` animation frames, namely the timestep indices `0`
through `T` inclusive, in strictly increasing order. -/
theorem renderer_frame_schedule (T : Nat) :
    (animationFrames T).length = T + 1 ∧
    (∀ i, i < T + 1 → (animationFrames T).getD i 0 = i) ∧
    List.Chain' (· < ·) (animationFrames T) := by
  refine ⟨by simp [animationFrames], ?_, ?_⟩
  · intro i hi
    simp [animationFrames, List.getD_eq_getElem?_getD, hi]
  · simpa [animationFrames] using List.chain'_range_succ (· < ·) T |>.mpr
      (fun i _ => Nat.lt_succ_self i)

/-- C9: serializing the run-configuration mapping and reconstructing it from
the token stream yields the original mapping exactly — every key at every
nesting level reappears with an equal value, with no tokens left over. -/
theorem run_config_serialization_roundtrip :
    deserializeValue 100 (serializeValue run_config) = some (run_config, []) := by
  rfl

/-- C10: the max-epoch count is computed with Python true division, so for
the shipped configuration (50000 episodes of length 200, batch size 10000)
it is the float 1000.0 and not the int 1000; in general, for a nonzero batch
size the quotient is integer-valued exactly when the divisor divides the
product. -/
theorem num_epochs_true_division :
    (num_epochs = PyNum.pyFloat 1000 ∧ num_epochs ≠ PyNum.pyInt 1000) ∧
    (∀ a b : Int, b ≠ 0 → ((pyTrueDiv a b).isIntegerValued ↔ b ∣ a)) := by
  constructor
  · constructor
    · have h1 : num_episodes = 50000 := by rfl
      have h2 : episode_length = 200 := by rfl
      have h3 : training_batch_size = 10000 := by rfl
      rw [num_epochs, h1, h2, h3, pyTrueDiv]
      norm_num
    · intro h
      simp only [num_epochs, pyTrueDiv] at h
      exact PyNum.noConfusion h
  · intro a b hb
    have hb' : (b : ℚ) ≠ 0 := Int.cast_ne_zero.mpr hb
    simp only [pyTrueDiv, PyNum.isIntegerValued]
    constructor
    · rintro ⟨n, hn⟩
      rw [div_eq_iff hb'] at hn
      have hn' : (a : ℚ) = (b : ℚ) * (n : ℚ) := by rw [hn, mul_comm]
      refine ⟨n, ?_⟩
      exact_mod_cast hn'
    · rintro ⟨k, rfl⟩
      refine ⟨k, ?_⟩
      push_cast
      field_simp

/-- Witness for `num_epochs_true_division` at the concrete divisor 3 and
dividend 6. -/
theorem num_epochs_true_division_witness :
    (3 : Int) ≠ 0 ∧ ((pyTrueDiv 6 3).isIntegerValued ↔ (3 : Int) ∣ 6) :=
  ⟨by decide, num_epochs_true_division.2 6 3 (by decide)⟩

/-- C1 counterexample: the claim that the displayed runners-left count is
never negative for every snapshot is false.  For the snapshot in which no
agent is flagged active (2 agents, 1 configured tagger), at frame 0 the
`animate` callback computes `0 - 1 = -1`, a negative displayed count. -/
theorem runners_left_negative_counterexample :
    nRunnersAlive (fun _ _ => false) 2 1 0 = -1 ∧
    nRunnersAlive (fun _ _ => false) 2 1 0 < 0 := by
  constructor
  · rfl
  · decide

/-- C1 (amended): the runners-left count displayed at frame `i` equals the
number of agents flagged active in `still_in_the_game` at timestep `i`
minus the configured tagger count; it is non-negative whenever at least
`numTaggers` agents are flagged active at that timestep (as in rollouts
where taggers never exit the game) — but not for arbitrary snapshots. -/
theorem runners_left_count (still : Nat → Nat → Bool)
    (numAgents numTaggers i : Nat)
    (h : numTaggers ≤ activeAgentsAt still numAgents i) :
    nRunnersAlive still numAgents numTaggers i =
      (activeAgentsAt still numAgents i : Int) - (numTaggers : Int) ∧
    0 ≤ nRunnersAlive still numAgents numTaggers i := by
  refine ⟨rfl, ?_⟩
  simp only [nRunnersAlive]
  omega

/-- Witness for `runners_left_count`: all 3 agents active, 1 tagger. -/
theorem runners_left_count_witness :
    (1 : Nat) ≤ activeAgentsAt (fun _ _ => true) 3 0 ∧
    (nRunnersAlive (fun _ _ => true) 3 1 0 =
      (activeAgentsAt (fun _ _ => true) 3 0 : Int) - (1 : Int) ∧
    0 ≤ nRunnersAlive (fun _ _ => true) 3 1 0) :=
  ⟨by decide, runners_left_count (fun _ _ => true) 3 1 0 (by decide)⟩

/-- C2: when the initial runner count `num_agents - num_taggers` is zero,
the label computation performed while setting up the animation divides by
zero and fails with `ZeroDivisionError` (the fraction is not coerced to a
value); whenever at least one runner exists the computation succeeds. -/
theorem label_division_by_zero (numAgents numTaggers : Nat) :
    (numAgents = numTaggers →
      getLabelData 0 (initNumRunners numAgents numTaggers)
          (initNumRunners numAgents numTaggers) =
        Except.error "ZeroDivisionError") ∧
    (numTaggers < numAgents →
      ∃ d, getLabelData 0 (initNumRunners numAgents numTaggers)
          (initNumRunners numAgents numTaggers) = Except.ok d ∧
        d.fracRunnersAlive = 1) := by
  constructor
  · intro h
    subst h
    simp [getLabelData, pyDivIntByInt, initNumRunners]
  · intro h
    have hz : initNumRunners numAgents numTaggers ≠ 0 := by
      simp only [initNumRunners]
      omega
    have hq : ((initNumRunners numAgents numTaggers : ℚ)) ≠ 0 :=
      Int.cast_ne_zero.mpr hz
    refine ⟨{ timestep := 0,
              nRunnersShown := initNumRunners numAgents numTaggers,
              fracRunnersAlive := (initNumRunners numAgents numTaggers : ℚ) /
                (initNumRunners numAgents numTaggers : ℚ) }, ?_, ?_⟩
    · simp [getLabelData, pyDivIntByInt, hz]
    · simp [div_self hq]

/-- Witness for `label_division_by_zero`: 5 agents, 5 taggers (zero
runners) triggers the division-by-zero failure. -/
theorem label_division_by_zero_witness :
    getLabelData 0 (initNumRunners 5 5) (initNumRunners 5 5) =
      Except.error "ZeroDivisionError" :=
  (label_division_by_zero 5 5).1 rfl

/-- C8: after the run configuration is created, every later statement of
the script that touches it (environment construction, module construction,
the log-frequency read and the trainer-parameter reads) only reads from it,
so the configuration after the script tail runs equals the configuration at
creation, for any starting state and in particular for the script's own. -/
theorem run_config_never_mutated :
    (∀ s : ScriptEnv, (scriptTailAfterConfig s).runConfigVar = s.runConfigVar) ∧
    (scriptTailAfterConfig initialScriptEnv).runConfigVar = run_config := by
  constructor
  · intro s
    rfl
  · rfl

/-- C4: for an agent whose `still_in_the_game` flag first becomes false at
frame `i`, sequential rendering from frame 0 shows the original role color
and glyph at every frame below `i`, the inactive color with no glyph at
every frame from `i` on, and a marker once inactive is never reset to a
role color nor has its glyph restored by a later `animate` call. -/
theorem inactive_marker_rendering (isTagger : Nat → Bool)
    (still : Nat → Nat → Bool) (a i : Nat)
    (hbefore : ∀ j, j < i → still j a = true) (hi : still i a = false) :
    (∀ k, k < i → renderedAt isTagger still k a = initMarker isTagger a) ∧
    (∀ k, i ≤ k → renderedAt isTagger still k a = inactiveMarker) ∧
    (∀ k, renderedAt isTagger still k a = inactiveMarker →
      renderedAt isTagger still (k + 1) a = inactiveMarker) := by
  have habs : ∀ k, renderedAt isTagger still k a = inactiveMarker →
      renderedAt isTagger still (k + 1) a = inactiveMarker := by
    intro k hk
    cases hs : still (k + 1) a
    · simp [renderedAt, animateStep, hs]
    · simp [renderedAt, animateStep, hs, hk]
  have part1 : ∀ k, k < i → renderedAt isTagger still k a = initMarker isTagger a := by
    intro k
    induction k with
    | zero =>
        intro hk
        simp [renderedAt, animateStep, hbefore 0 hk]
    | succ m ih =>
        intro hk
        have hm : m < i := Nat.lt_of_succ_lt hk
        simp [renderedAt, animateStep, hbefore (m + 1) hk, ih hm]
  have hat : renderedAt isTagger still i a = inactiveMarker := by
    cases i with
    | zero => simp [renderedAt, animateStep, hi]
    | succ m => simp [renderedAt, animateStep, hi]
  have part2 : ∀ k, i ≤ k → renderedAt isTagger still k a = inactiveMarker := by
    intro k hk
    induction k, hk using Nat.le_induction with
    | base => exact hat
    | succ n hn ihn => exact habs n ihn
  exact ⟨part1, part2, habs⟩

/-- Witness for `inactive_marker_rendering`: under `sampleStill`, agent 1's
flag is true at frame 0 and first false at frame 1. -/
theorem inactive_marker_rendering_witness :
    (∀ j, j < 1 → sampleStill j 1 = true) ∧ sampleStill 1 1 = false ∧
    ((∀ k, k < 1 → renderedAt sampleTaggers sampleStill k 1 =
        initMarker sampleTaggers 1) ∧
     (∀ k, 1 ≤ k → renderedAt sampleTaggers sampleStill k 1 = inactiveMarker) ∧
     (∀ k, renderedAt sampleTaggers sampleStill k 1 = inactiveMarker →
       renderedAt sampleTaggers sampleStill (k + 1) 1 = inactiveMarker)) :=
  ⟨by decide, by decide,
    inactive_marker_rendering sampleTaggers sampleStill 1 1 (by decide) (by decide)⟩

/-- C7: a snapshot lacking one of the three expected channels passes the
renderer's snapshot validation (which only checks that the snapshot is a
dictionary) and then fails with a key-lookup failure precisely at the
first access of a missing channel, in the renderer's access order
`loc_x`, `loc_y`, `still_in_the_game`. -/
theorem missing_channel_fails_at_first_access {α : Type}
    (snapshot : Channel → Option α) (c : Channel) (h : snapshot c = none) :
    validateEpisodeStates snapshot = Except.ok () ∧
    ∃ cm, fetchRequest.find? (fun x => (snapshot x).isNone) = some cm ∧
      rendererChannelReads snapshot = Except.error cm := by
  refine ⟨rfl, ?_⟩
  cases hx : snapshot Channel.loc_x with
  | none =>
      exact ⟨Channel.loc_x, by simp [fetchRequest, hx],
        by simp [rendererChannelReads, accessChannel, hx]⟩
  | some vx =>
    cases hy : snapshot Channel.loc_y with
    | none =>
        exact ⟨Channel.loc_y, by simp [fetchRequest, hx, hy],
          by simp [rendererChannelReads, accessChannel, hx, hy]⟩
    | some vy =>
      cases hs : snapshot Channel.still_in_the_game with
      | none =>
          exact ⟨Channel.still_in_the_game, by simp [fetchRequest, hx, hy, hs],
            by simp [rendererChannelReads, accessChannel, hx, hy, hs]⟩
      | some vs =>
          exfalso
          cases c
          · rw [h] at hx; exact Option.noConfusion hx
          · rw [h] at hy; exact Option.noConfusion hy
          · rw [h] at hs; exact Option.noConfusion hs

/-- Witness for `missing_channel_fails_at_first_access`: a snapshot that
lacks the `still_in_the_game` channel. -/
theorem missing_channel_witness :
    sampleSnapshot Channel.still_in_the_game = none ∧
    (validateEpisodeStates sampleSnapshot = Except.ok () ∧
     ∃ cm, fetchRequest.find? (fun x => (sampleSnapshot x).isNone) = some cm ∧
       rendererChannelReads sampleSnapshot = Except.error cm) :=
  ⟨by decide,
    missing_channel_fails_at_first_access sampleSnapshot
      Channel.still_in_the_game (by decide)⟩

/-- C6: `graceful_close` is the last statement of the script, occurs exactly
once, is immediately preceded by the trainer's `fit` call, and is reached
exactly when every earlier statement (including `fit`) completes normally;
if any earlier statement raises, the teardown is never reached. -/
theorem graceful_close_last_and_guarded (raises : Stmt → Bool) :
    script.getLast? = some Stmt.gracefulClose ∧
    script.count Stmt.gracefulClose = 1 ∧
    (stmtsBefore Stmt.gracefulClose).getLast? = some Stmt.fitTrainer ∧
    (reachedStmt raises Stmt.gracefulClose = true ↔
      ∀ t ∈ stmtsBefore Stmt.gracefulClose, raises t = false) ∧
    (∀ t ∈ stmtsBefore Stmt.gracefulClose, raises t = true →
      reachedStmt raises Stmt.gracefulClose = false) := by
  have hall : reachedStmt raises Stmt.gracefulClose = true ↔
      ∀ t ∈ stmtsBefore Stmt.gracefulClose, raises t = false := by
    simp [reachedStmt, List.all_eq_true, Bool.not_eq_true']
  refine ⟨rfl, by decide, rfl, hall, ?_⟩
  intro t ht hr
  cases hR : reachedStmt raises Stmt.gracefulClose
  · rfl
  · exact absurd (hall.mp hR t ht) (by simp [hr])

/-- Witness for `graceful_close_last_and_guarded`: when the `fit` call
raises, the teardown statement is never reached. -/
theorem graceful_close_guarded_witness :
    reachedStmt (fun s => decide (s = Stmt.fitTrainer)) Stmt.gracefulClose = false :=
  (graceful_close_last_and_guarded
      (fun s => decide (s = Stmt.fitTrainer))).2.2.2.2
    Stmt.fitTrainer (by decide) (by decide)

/-- Witness for `gpu_precheck_fails_iff_no_gpu` at zero and one GPUs. -/
theorem gpu_precheck_witness :
    assertGpus 0 = Except.error "This notebook needs a GPU to run!" ∧
    assertGpus 1 = Except.ok () :=
  ⟨(gpu_precheck_fails_iff_no_gpu 0).1.mpr rfl,
   (gpu_precheck_fails_iff_no_gpu 1).2.mpr (by decide)⟩

/-- Witness for `renderer_frame_schedule` at episode length 2. -/
theorem renderer_frame_schedule_witness :
    (animationFrames 2).length = 3 ∧ (animationFrames 2).getD 1 0 = 1 ∧
    List.Chain' (· < ·) (animationFrames 2) :=
  ⟨(renderer_frame_schedule 2).1,
   (renderer_frame_schedule 2).2.1 1 (by decide),
   (renderer_frame_schedule 2).2.2⟩

end MultiAgentRL
